import Mathlib

/-!
Verification of the Headsail BSP sysctrl uDMA SPI-M driver
(`examples/headsail-bsp/src/sysctrl/udma/spim.rs`).

The driver is shallowly embedded:
* the 32-bit command-word constants are `Nat` values;
* a caller buffer is its 32-bit address together with its byte contents;
* the pure command-word encoding done by `send` / `receive` is a function
  from a buffer to the list of three 32-bit words;
* each transaction helper (`sot`, `eot`, `eot_keep_cs`, `send_dummy`,
  `send`, `receive`) is modelled by the sequence of channel operations it
  performs (bytes pushed to the command channel, buffers armed on the
  tx/rx channels);
* each raw channel primitive (`enqueue_cmd`, `enqueue_tx`, `enqueue_rx`)
  is modelled by the sequence of register-level events it performs, with a
  small-step semantics over the peripheral's register file;
* the typestate lifecycle (`Disabled` / `Enabled` phantom-type states) is
  reified as a finite table of which impl block each method lives in, and
  a transition relation with one constructor per state-changing method.

Machine integers are `Nat` with explicit reduction modulo `2 ^ 32`; the
target (32-bit RISC-V) is little-endian, so `to_ne_bytes` is the
little-endian byte decomposition.
-/

namespace Spim

/-- The modulus of the target machine's 32-bit words (`u32` / 32-bit `usize`). -/
def U32 : Nat := 2 ^ 32

/-! Command-word opcode constants, from the top of `spim.rs`. -/

def SPI_CMD_CFG : Nat := 0x00000000
def SPI_CMD_SOT : Nat := 0x10000000
def SPI_CMD_EOT : Nat := 0x90000000
def SPI_CMD_SEND_CMD_BASE : Nat := 0x20070000
def SPI_CMD_DUMMY : Nat := 0x400F0000
def SPI_CMD_RX_CHECK : Nat := 0xB0200000
def SPI_CMD_RX_DATA : Nat := 0x74000000
def SPI_CMD_TX_DATA : Nat := 0x64000000
def SPI_CMD_SETUP_UCA : Nat := 0xD0000000
def SPI_CMD_SETUP_UCS : Nat := 0xE0000000

/-- `u32::to_ne_bytes` on the little-endian 32-bit target: the four bytes of
a word, least significant first. -/
def u32ToNeBytes (w : Nat) : List Nat :=
  [w % 2 ^ 8, w / 2 ^ 8 % 2 ^ 8, w / 2 ^ 16 % 2 ^ 8, w / 2 ^ 24 % 2 ^ 8]

/-- Wrapping subtraction of 32-bit `usize` values, the release-build
semantics of Rust's `a - b` on `usize` (debug builds would panic on
underflow instead; the driver performs the subtraction unguarded). -/
def usizeSub (a b : Nat) : Nat := (a % U32 + (U32 - b % U32)) % U32

/-- A caller-supplied byte buffer: its machine address (`as_ptr() as u32`)
and its byte contents (`data[i]` for `i < len`). -/
structure Buffer where
  addr : Nat
  data : List Nat
deriving DecidableEq, Repr

/-- Representability of a buffer on the 32-bit target: the address and the
byte length fit in a 32-bit `usize`. -/
def Buffer.Wf (b : Buffer) : Prop := b.addr < U32 ∧ b.data.length < U32

instance (b : Buffer) : Decidable b.Wf := by unfold Buffer.Wf; infer_instance

/-- The three command words encoded by `send` (`spim.rs` lines 152-159):
set-up-address with the low 16 address bits, set-up-size with `len - 2`,
and transmit-data with `len - 1` OR'd with the bit-width selector `7 << 16`. -/
def sendCmdWords (b : Buffer) : List Nat :=
  [ SPI_CMD_SETUP_UCA ||| ((b.addr % U32) &&& 0x0000FFFF),
    SPI_CMD_SETUP_UCS ||| usizeSub b.data.length 2,
    SPI_CMD_TX_DATA ||| usizeSub b.data.length 1 ||| (7 <<< 16) ]

/-- The three command words encoded by `receive` (`spim.rs` lines 180-187):
identical to `send` except the third word uses the receive-data opcode. -/
def receiveCmdWords (b : Buffer) : List Nat :=
  [ SPI_CMD_SETUP_UCA ||| ((b.addr % U32) &&& 0x0000FFFF),
    SPI_CMD_SETUP_UCS ||| usizeSub b.data.length 2,
    SPI_CMD_RX_DATA ||| usizeSub b.data.length 1 ||| (7 <<< 16) ]

/-- One operation on a uDMA channel, as performed by the transaction
helpers: push a byte sequence to the command channel (`enqueue_cmd`), or
arm the transmit / receive channel with a caller buffer (`enqueue_tx` /
`enqueue_rx`). -/
inductive ChanOp where
  | cmd (bytes : List Nat)
  | tx (buf : Buffer)
  | rx (buf : Buffer)
deriving DecidableEq, Repr

/-- `sot()`: enqueues the four native-order bytes of `SPI_CMD_SOT` on the
command channel. -/
def sot : List ChanOp := [.cmd (u32ToNeBytes SPI_CMD_SOT)]

/-- `eot()`: enqueues the four native-order bytes of `SPI_CMD_EOT` on the
command channel. -/
def eot : List ChanOp := [.cmd (u32ToNeBytes SPI_CMD_EOT)]

/-- `eot_keep_cs()`: enqueues the four native-order bytes of
`SPI_CMD_EOT | 0x03` on the command channel. -/
def eot_keep_cs : List ChanOp := [.cmd (u32ToNeBytes (SPI_CMD_EOT ||| 0x03))]

/-- `send_dummy()`: builds the word `SPI_CMD_SEND_CMD_BASE | 0xFF`, copies
its four native-order bytes into a 4-byte buffer and enqueues that buffer
on the command channel, once. -/
def send_dummy : List ChanOp := [.cmd (u32ToNeBytes (SPI_CMD_SEND_CMD_BASE ||| 0xFF))]

/-- `send(data)`: fills the 12-byte `cmd_data` array with the native-order
bytes of the three words (set-up-address, set-up-size, transmit-data),
enqueues it on the command channel, then arms the transmit channel with
`data` itself. -/
def send (b : Buffer) : List ChanOp :=
  [ .cmd (u32ToNeBytes (SPI_CMD_SETUP_UCA ||| ((b.addr % U32) &&& 0x0000FFFF)) ++
          u32ToNeBytes (SPI_CMD_SETUP_UCS ||| usizeSub b.data.length 2) ++
          u32ToNeBytes (SPI_CMD_TX_DATA ||| usizeSub b.data.length 1 ||| (7 <<< 16))),
    .tx b ]

/-- `receive(data)`: fills the 12-byte `cmd_data` array with the
native-order bytes of the three words (set-up-address, set-up-size,
receive-data), enqueues it on the command channel, then arms the receive
channel with `data` itself. -/
def receive (b : Buffer) : List ChanOp :=
  [ .cmd (u32ToNeBytes (SPI_CMD_SETUP_UCA ||| ((b.addr % U32) &&& 0x0000FFFF)) ++
          u32ToNeBytes (SPI_CMD_SETUP_UCS ||| usizeSub b.data.length 2) ++
          u32ToNeBytes (SPI_CMD_RX_DATA ||| usizeSub b.data.length 1 ||| (7 <<< 16))),
    .rx b ]

/-- The nine per-channel registers of the SPI-M uDMA block touched by the
enqueue primitives: start-address, size and config for each of the
command, transmit and receive channels. -/
inductive Reg where
  | cmd_saddr | cmd_size | cmd_cfg
  | tx_saddr | tx_size | tx_cfg
  | rx_saddr | rx_size | rx_cfg
deriving DecidableEq, Repr

/-- A register-level step performed by an enqueue primitive: a register
write, or the busy-poll loop `while reg.read().bits() != 0 {}` that only
returns once the hardware has cleared the register. -/
inductive Event where
  | write (r : Reg) (v : Nat)
  | pollZero (r : Reg)
deriving DecidableEq, Repr

/-- `enqueue_cmd(buf)` (`spim.rs` lines 80-97): write the buffer address
to `spim_cmd_saddr`, the byte length to `spim_cmd_size`, the enable bit to
`spim_cmd_cfg`, then poll `spim_cmd_saddr` until it reads zero. -/
def enqueue_cmd (buf : Buffer) : List Event :=
  [ .write .cmd_saddr (buf.addr % U32),
    .write .cmd_size (buf.data.length % U32),
    .write .cmd_cfg 1,
    .pollZero .cmd_saddr ]

/-- `enqueue_tx(buf)` (`spim.rs` lines 43-60): write the buffer address to
`spim_tx_saddr`, the byte length to `spim_tx_size`, the enable bit to
`spim_tx_cfg`, then poll `spim_tx_saddr` until it reads zero. -/
def enqueue_tx (buf : Buffer) : List Event :=
  [ .write .tx_saddr (buf.addr % U32),
    .write .tx_size (buf.data.length % U32),
    .write .tx_cfg 1,
    .pollZero .tx_saddr ]

/-- `enqueue_rx(buf)` (`spim.rs` lines 61-78): write the buffer address to
`spim_rx_saddr`, the byte length to `spim_rx_size`, the enable bit to
`spim_rx_cfg`, then poll `spim_rx_saddr` until it reads zero. -/
def enqueue_rx (buf : Buffer) : List Event :=
  [ .write .rx_saddr (buf.addr % U32),
    .write .rx_size (buf.data.length % U32),
    .write .rx_cfg 1,
    .pollZero .rx_saddr ]

/-- The register file of the SPI-M uDMA block as seen by this driver: the
nine channel registers plus the `cg_spim` clock-gate bit of
`ctrl_cfg_cg`. -/
structure SpimRegs where
  cmd_saddr : Nat
  cmd_size : Nat
  cmd_cfg : Nat
  tx_saddr : Nat
  tx_size : Nat
  tx_cfg : Nat
  rx_saddr : Nat
  rx_size : Nat
  rx_cfg : Nat
  cg_spim : Bool
deriving DecidableEq, Repr

/-- Store a value in one of the nine channel registers. -/
def setReg (s : SpimRegs) (r : Reg) (v : Nat) : SpimRegs :=
  match r with
  | .cmd_saddr => { s with cmd_saddr := v }
  | .cmd_size => { s with cmd_size := v }
  | .cmd_cfg => { s with cmd_cfg := v }
  | .tx_saddr => { s with tx_saddr := v }
  | .tx_size => { s with tx_size := v }
  | .tx_cfg => { s with tx_cfg := v }
  | .rx_saddr => { s with rx_saddr := v }
  | .rx_size => { s with rx_size := v }
  | .rx_cfg => { s with rx_cfg := v }

/-- Effect of one event on the register file.  A `write` stores the value.
A `pollZero` is the blocking loop `while reg.read().bits() != 0 {}`: it
performs no write itself, but it returns exactly when the hardware has
cleared the register, so in the post-state the polled register reads
zero. -/
def applyEvent (s : SpimRegs) (e : Event) : SpimRegs :=
  match e with
  | .write r v => setReg s r v
  | .pollZero r => setReg s r 0

/-- Run a sequence of register-level events from a starting register
state. -/
def run (s : SpimRegs) (es : List Event) : SpimRegs := es.foldl applyEvent s

/-- `enable` (`spim.rs` lines 25-32), effect on the register file: set the
`cg_spim` clock-gate bit of `ctrl_cfg_cg`, touching nothing else. -/
def enable (s : SpimRegs) : SpimRegs := { s with cg_spim := true }

/-- `disable` (`spim.rs` lines 37-40), effect on the register file: clear
the `cg_spim` clock-gate bit of `ctrl_cfg_cg`, touching nothing else. -/
def disable (s : SpimRegs) : SpimRegs := { s with cg_spim := false }

/-! ## Typestate lifecycle

`UdmaSpim<'u, UdmaPeriphState>` carries a phantom type that is either
`Disabled` or `Enabled`; methods are distributed over the two impl blocks
`impl UdmaSpim<'u, Disabled>` and `impl UdmaSpim<'u, Enabled>`, so a
method is callable exactly when the handle's type-level state matches its
impl block.  The tables below reify that structure. -/

/-- The two type-level lifecycle states of the handle. -/
inductive UdmaPeriphState where
  | Disabled | Enabled
deriving DecidableEq, Repr

/-- The public methods of `UdmaSpim`. -/
inductive SpimOp where
  | enable | disable
  | enqueue_cmd | enqueue_tx | enqueue_rx
  | sot | eot | eot_keep_cs | send_dummy | send | receive
deriving DecidableEq, Repr

/-- The typestate of the impl block each method is defined in: `enable`
lives in `impl UdmaSpim<'u, Disabled>`, every other method in
`impl UdmaSpim<'u, Enabled>`.  A method is reachable only on a handle in
this state. -/
def implState : SpimOp → UdmaPeriphState
  | .enable => .Disabled
  | .disable => .Enabled
  | .enqueue_cmd => .Enabled
  | .enqueue_tx => .Enabled
  | .enqueue_rx => .Enabled
  | .sot => .Enabled
  | .eot => .Enabled
  | .eot_keep_cs => .Enabled
  | .send_dummy => .Enabled
  | .send => .Enabled
  | .receive => .Enabled

/-- The data-moving operations named by the invariant: everything except
the two lifecycle transitions. -/
def movesData : SpimOp → Bool
  | .enable => false
  | .disable => false
  | _ => true

/-- The state transitions offered by the driver, one constructor per
state-changing method: `enable` consumes a `Disabled` handle and returns
an `Enabled` one, `disable` the reverse.  No other method changes the
type-level state. -/
inductive Transition : UdmaPeriphState → UdmaPeriphState → Prop where
  | enable : Transition .Disabled .Enabled
  | disable : Transition .Enabled .Disabled

/-! ## Theorems -/

/-- Wrapping `usize` subtraction agrees with plain subtraction when the
minuend is representable and at least the subtrahend. -/
theorem usizeSub_eq_sub (n k : Nat) (hk : k ≤ n) (hn : n < U32) (hkU : k < U32) :
    usizeSub n k = n - k := by
  have hU : U32 = 4294967296 := by norm_num [U32]
  unfold usizeSub
  rw [hU] at hn hkU ⊢
  omega

/-- Claim C1: for a buffer of length at least 2, `send` encodes exactly the
three words set-up-address OR low 16 address bits, set-up-size OR
`len - 2`, transmit-data OR `len - 1` OR `7 << 16`; it pushes their twelve
native-order bytes on the command channel and then arms the transmit
channel with the data buffer itself. -/
theorem send_encodes_three_words (b : Buffer) (hw : b.Wf) (h2 : 2 ≤ b.data.length) :
    sendCmdWords b =
      [ SPI_CMD_SETUP_UCA ||| (b.addr &&& 0x0000FFFF),
        SPI_CMD_SETUP_UCS ||| (b.data.length - 2),
        SPI_CMD_TX_DATA ||| (b.data.length - 1) ||| (7 <<< 16) ]
  ∧ send b = [ChanOp.cmd (((sendCmdWords b).map u32ToNeBytes).flatten), ChanOp.tx b]
  ∧ (((sendCmdWords b).map u32ToNeBytes).flatten).length = 12 := by
  obtain ⟨ha, hl⟩ := hw
  have hmod : b.addr % U32 = b.addr := Nat.mod_eq_of_lt ha
  have e2 : usizeSub b.data.length 2 = b.data.length - 2 :=
    usizeSub_eq_sub _ _ h2 hl (by norm_num [U32])
  have e1 : usizeSub b.data.length 1 = b.data.length - 1 :=
    usizeSub_eq_sub _ _ (le_trans one_le_two h2) hl (by norm_num [U32])
  refine ⟨?_, ?_, ?_⟩
  · simp only [sendCmdWords, hmod, e2, e1]
  · simp [send, sendCmdWords, u32ToNeBytes]
  · simp [sendCmdWords, u32ToNeBytes]

/-- Witness for C1 at the buffer with address 70 and bytes `[1, 2, 3]`. -/
theorem send_encodes_three_words_witness :
    (⟨70, [1, 2, 3]⟩ : Buffer).Wf ∧ 2 ≤ (⟨70, [1, 2, 3]⟩ : Buffer).data.length ∧
      (sendCmdWords ⟨70, [1, 2, 3]⟩ =
          [ SPI_CMD_SETUP_UCA ||| ((⟨70, [1, 2, 3]⟩ : Buffer).addr &&& 0x0000FFFF),
            SPI_CMD_SETUP_UCS ||| ((⟨70, [1, 2, 3]⟩ : Buffer).data.length - 2),
            SPI_CMD_TX_DATA ||| ((⟨70, [1, 2, 3]⟩ : Buffer).data.length - 1) ||| (7 <<< 16) ]
        ∧ send ⟨70, [1, 2, 3]⟩ =
            [ChanOp.cmd (((sendCmdWords ⟨70, [1, 2, 3]⟩).map u32ToNeBytes).flatten),
             ChanOp.tx ⟨70, [1, 2, 3]⟩]
        ∧ (((sendCmdWords ⟨70, [1, 2, 3]⟩).map u32ToNeBytes).flatten).length = 12) :=
  ⟨by decide, by decide, send_encodes_three_words ⟨70, [1, 2, 3]⟩ (by decide) (by decide)⟩

/-- Claim C4: for a buffer of length at least 2, `receive` emits the same
first two command words as `send`; the third word carries the same
immediate (`len - 1` OR `7 << 16`) under the receive-data opcode instead
of the transmit-data opcode; and `receive` arms the receive channel with
the buffer where `send` arms the transmit channel. -/
theorem receive_mirrors_send (b : Buffer) (hw : b.Wf) (h2 : 2 ≤ b.data.length) :
    (receiveCmdWords b).take 2 = (sendCmdWords b).take 2
  ∧ (sendCmdWords b).drop 2 = [SPI_CMD_TX_DATA ||| (b.data.length - 1) ||| (7 <<< 16)]
  ∧ (receiveCmdWords b).drop 2 = [SPI_CMD_RX_DATA ||| (b.data.length - 1) ||| (7 <<< 16)]
  ∧ receive b = [ChanOp.cmd (((receiveCmdWords b).map u32ToNeBytes).flatten), ChanOp.rx b]
  ∧ send b = [ChanOp.cmd (((sendCmdWords b).map u32ToNeBytes).flatten), ChanOp.tx b] := by
  obtain ⟨ha, hl⟩ := hw
  have e1 : usizeSub b.data.length 1 = b.data.length - 1 :=
    usizeSub_eq_sub _ _ (le_trans one_le_two h2) hl (by norm_num [U32])
  refine ⟨?_, ?_, ?_, ?_, ?_⟩
  · simp [sendCmdWords, receiveCmdWords]
  · simp [sendCmdWords, e1]
  · simp [receiveCmdWords, e1]
  · simp [receive, receiveCmdWords, u32ToNeBytes]
  · simp [send, sendCmdWords, u32ToNeBytes]

/-- Witness for C4 at the buffer with address 5 and bytes `[9, 8, 7]`. -/
theorem receive_mirrors_send_witness :
    (⟨5, [9, 8, 7]⟩ : Buffer).Wf ∧ 2 ≤ (⟨5, [9, 8, 7]⟩ : Buffer).data.length ∧
      ((receiveCmdWords ⟨5, [9, 8, 7]⟩).take 2 = (sendCmdWords ⟨5, [9, 8, 7]⟩).take 2
        ∧ (sendCmdWords ⟨5, [9, 8, 7]⟩).drop 2 =
            [SPI_CMD_TX_DATA ||| ((⟨5, [9, 8, 7]⟩ : Buffer).data.length - 1) ||| (7 <<< 16)]
        ∧ (receiveCmdWords ⟨5, [9, 8, 7]⟩).drop 2 =
            [SPI_CMD_RX_DATA ||| ((⟨5, [9, 8, 7]⟩ : Buffer).data.length - 1) ||| (7 <<< 16)]
        ∧ receive ⟨5, [9, 8, 7]⟩ =
            [ChanOp.cmd (((receiveCmdWords ⟨5, [9, 8, 7]⟩).map u32ToNeBytes).flatten),
             ChanOp.rx ⟨5, [9, 8, 7]⟩]
        ∧ send ⟨5, [9, 8, 7]⟩ =
            [ChanOp.cmd (((sendCmdWords ⟨5, [9, 8, 7]⟩).map u32ToNeBytes).flatten),
             ChanOp.tx ⟨5, [9, 8, 7]⟩]) :=
  ⟨by decide, by decide, receive_mirrors_send ⟨5, [9, 8, 7]⟩ (by decide) (by decide)⟩

/-- Claim C9: the command-word encoding of `send` and `receive` is a pure
function of the buffer's address and length alone — two buffers agreeing
on address and length yield identical word triples, whatever their
contents. -/
theorem cmd_encoding_deterministic (b₁ b₂ : Buffer) (ha : b₁.addr = b₂.addr)
    (hl : b₁.data.length = b₂.data.length) (h2 : 2 ≤ b₁.data.length) :
    sendCmdWords b₁ = sendCmdWords b₂ ∧ receiveCmdWords b₁ = receiveCmdWords b₂ := by
  have h2b : 2 ≤ b₂.data.length := hl ▸ h2
  unfold sendCmdWords receiveCmdWords
  rw [ha, hl]
  exact ⟨rfl, rfl⟩

/-- Witness for C9 on two buffers at address 40 with equal length 2 but
different contents. -/
theorem cmd_encoding_deterministic_witness :
    (⟨40, [1, 2]⟩ : Buffer).addr = (⟨40, [250, 0]⟩ : Buffer).addr
  ∧ (⟨40, [1, 2]⟩ : Buffer).data.length = (⟨40, [250, 0]⟩ : Buffer).data.length
  ∧ 2 ≤ (⟨40, [1, 2]⟩ : Buffer).data.length
  ∧ (sendCmdWords ⟨40, [1, 2]⟩ = sendCmdWords ⟨40, [250, 0]⟩
      ∧ receiveCmdWords ⟨40, [1, 2]⟩ = receiveCmdWords ⟨40, [250, 0]⟩) :=
  ⟨by decide, by decide, by decide,
    cmd_encoding_deterministic ⟨40, [1, 2]⟩ ⟨40, [250, 0]⟩ (by decide) (by decide) (by decide)⟩

/-- Claim C5: `sot` pushes exactly the one fixed word `SPI_CMD_SOT`; `eot`
exactly the constant `0x90000000`; `eot_keep_cs` that same base OR'd with
`0x03`; each as a single four-byte native-order word on the command
channel. -/
theorem sot_eot_fixed_words :
    sot = [ChanOp.cmd (u32ToNeBytes SPI_CMD_SOT)]
  ∧ u32ToNeBytes SPI_CMD_SOT = [0x00, 0x00, 0x00, 0x10]
  ∧ eot = [ChanOp.cmd (u32ToNeBytes 0x90000000)]
  ∧ u32ToNeBytes 0x90000000 = [0x00, 0x00, 0x00, 0x90]
  ∧ eot_keep_cs = [ChanOp.cmd (u32ToNeBytes (0x90000000 ||| 0x03))]
  ∧ u32ToNeBytes (0x90000000 ||| 0x03) = [0x03, 0x00, 0x00, 0x90]
  ∧ SPI_CMD_EOT = 0x90000000 := by
  refine ⟨rfl, by decide, rfl, by decide, rfl, by decide, rfl⟩

/-- Claim C8: `send_dummy` pushes on the command channel exactly one
four-byte word, `SPI_CMD_SEND_CMD_BASE | 0xFF`, once per call. -/
theorem send_dummy_single_word :
    send_dummy = [ChanOp.cmd (u32ToNeBytes (SPI_CMD_SEND_CMD_BASE ||| 0xFF))]
  ∧ u32ToNeBytes (SPI_CMD_SEND_CMD_BASE ||| 0xFF) = [0xFF, 0x00, 0x07, 0x20]
  ∧ send_dummy.length = 1 := by
  refine ⟨rfl, by decide, rfl⟩

/-- Claim C2: each enqueue primitive performs, in order, a write of the
buffer address to its channel's start-address register, a write of the
byte length to its size register, and a write of the enable bit to its
config register, and then blocks on the poll of the start-address
register; when it returns, that register reads zero. -/
theorem enqueue_writes_then_polls (buf : Buffer) (s : SpimRegs) :
    (enqueue_cmd buf =
        [Event.write .cmd_saddr (buf.addr % U32), Event.write .cmd_size (buf.data.length % U32),
         Event.write .cmd_cfg 1, Event.pollZero .cmd_saddr]
      ∧ (run s (enqueue_cmd buf)).cmd_saddr = 0
      ∧ (run s (enqueue_cmd buf)).cmd_size = buf.data.length % U32
      ∧ (run s (enqueue_cmd buf)).cmd_cfg = 1)
  ∧ (enqueue_tx buf =
        [Event.write .tx_saddr (buf.addr % U32), Event.write .tx_size (buf.data.length % U32),
         Event.write .tx_cfg 1, Event.pollZero .tx_saddr]
      ∧ (run s (enqueue_tx buf)).tx_saddr = 0
      ∧ (run s (enqueue_tx buf)).tx_size = buf.data.length % U32
      ∧ (run s (enqueue_tx buf)).tx_cfg = 1)
  ∧ (enqueue_rx buf =
        [Event.write .rx_saddr (buf.addr % U32), Event.write .rx_size (buf.data.length % U32),
         Event.write .rx_cfg 1, Event.pollZero .rx_saddr]
      ∧ (run s (enqueue_rx buf)).rx_saddr = 0
      ∧ (run s (enqueue_rx buf)).rx_size = buf.data.length % U32
      ∧ (run s (enqueue_rx buf)).rx_cfg = 1) := by
  refine ⟨⟨rfl, ?_, ?_, ?_⟩, ⟨rfl, ?_, ?_, ?_⟩, ⟨rfl, ?_, ?_, ?_⟩⟩ <;>
    simp [run, enqueue_cmd, enqueue_tx, enqueue_rx, applyEvent, setReg]

/-- Claim C10: each enqueue primitive touches only its own channel's three
registers — running `enqueue_tx` leaves the command channel's registers,
the receive channel's registers and the clock gate exactly as they were,
and symmetrically for `enqueue_rx` and `enqueue_cmd`. -/
theorem enqueue_frame (buf : Buffer) (s : SpimRegs) :
    ((run s (enqueue_tx buf)).cmd_saddr = s.cmd_saddr
      ∧ (run s (enqueue_tx buf)).cmd_size = s.cmd_size
      ∧ (run s (enqueue_tx buf)).cmd_cfg = s.cmd_cfg
      ∧ (run s (enqueue_tx buf)).rx_saddr = s.rx_saddr
      ∧ (run s (enqueue_tx buf)).rx_size = s.rx_size
      ∧ (run s (enqueue_tx buf)).rx_cfg = s.rx_cfg
      ∧ (run s (enqueue_tx buf)).cg_spim = s.cg_spim)
  ∧ ((run s (enqueue_rx buf)).cmd_saddr = s.cmd_saddr
      ∧ (run s (enqueue_rx buf)).cmd_size = s.cmd_size
      ∧ (run s (enqueue_rx buf)).cmd_cfg = s.cmd_cfg
      ∧ (run s (enqueue_rx buf)).tx_saddr = s.tx_saddr
      ∧ (run s (enqueue_rx buf)).tx_size = s.tx_size
      ∧ (run s (enqueue_rx buf)).tx_cfg = s.tx_cfg
      ∧ (run s (enqueue_rx buf)).cg_spim = s.cg_spim)
  ∧ ((run s (enqueue_cmd buf)).tx_saddr = s.tx_saddr
      ∧ (run s (enqueue_cmd buf)).tx_size = s.tx_size
      ∧ (run s (enqueue_cmd buf)).tx_cfg = s.tx_cfg
      ∧ (run s (enqueue_cmd buf)).rx_saddr = s.rx_saddr
      ∧ (run s (enqueue_cmd buf)).rx_size = s.rx_size
      ∧ (run s (enqueue_cmd buf)).rx_cfg = s.rx_cfg
      ∧ (run s (enqueue_cmd buf)).cg_spim = s.cg_spim) := by
  simp [run, enqueue_cmd, enqueue_tx, enqueue_rx, applyEvent, setReg]

/-- Claim C6: every data-moving operation lives in the `Enabled` impl
block (so it is reachable only on an `Enabled` handle); the lifecycle has
exactly the two states `Disabled` and `Enabled`; and the only transitions
are `enable` from `Disabled` to `Enabled` and `disable` back. -/
theorem lifecycle_typestate (op : SpimOp) (s t : UdmaPeriphState)
    (h : movesData op = true) :
    implState op = .Enabled
  ∧ (Transition s t ↔
      (s = .Disabled ∧ t = .Enabled) ∨ (s = .Enabled ∧ t = .Disabled))
  ∧ (s = .Disabled ∨ s = .Enabled) := by
  refine ⟨?_, ?_, ?_⟩
  · cases op <;> simp_all [movesData, implState]
  · constructor
    · intro ht
      cases ht
      · exact Or.inl ⟨rfl, rfl⟩
      · exact Or.inr ⟨rfl, rfl⟩
    · rintro (⟨rfl, rfl⟩ | ⟨rfl, rfl⟩)
      · exact .enable
      · exact .disable
  · cases s
    · exact Or.inl rfl
    · exact Or.inr rfl

/-- Witness for C6 at the `send` operation and the state pair
(`Disabled`, `Enabled`). -/
theorem lifecycle_typestate_witness :
    movesData .send = true
  ∧ (implState .send = .Enabled
      ∧ (Transition .Disabled .Enabled ↔
          ((UdmaPeriphState.Disabled = .Disabled ∧ UdmaPeriphState.Enabled = .Enabled)
            ∨ (UdmaPeriphState.Disabled = .Enabled ∧ UdmaPeriphState.Enabled = .Disabled)))
      ∧ (UdmaPeriphState.Disabled = .Disabled ∨ UdmaPeriphState.Disabled = .Enabled)) :=
  ⟨by decide, lifecycle_typestate .send .Disabled .Enabled (by decide)⟩

/-- Claim C7: starting from a register state with the clock gate cleared,
`enable` then `disable` leaves the clock-gate bit cleared, equal to its
original value; and a second `disable` leaves exactly the state of the
first. -/
theorem enable_disable_clock_gate (s : SpimRegs) (h : s.cg_spim = false) :
    (disable (enable s)).cg_spim = false
  ∧ (disable (enable s)).cg_spim = s.cg_spim
  ∧ disable (disable s) = disable s := by
  refine ⟨?_, ?_, ?_⟩
  · simp [disable, enable]
  · simp [disable, enable, h]
  · rfl

/-- Witness for C7 at the all-zero register state. -/
theorem enable_disable_clock_gate_witness :
    (SpimRegs.mk 0 0 0 0 0 0 0 0 0 false).cg_spim = false
  ∧ ((disable (enable (SpimRegs.mk 0 0 0 0 0 0 0 0 0 false))).cg_spim = false
      ∧ (disable (enable (SpimRegs.mk 0 0 0 0 0 0 0 0 0 false))).cg_spim =
          (SpimRegs.mk 0 0 0 0 0 0 0 0 0 false).cg_spim
      ∧ disable (disable (SpimRegs.mk 0 0 0 0 0 0 0 0 0 false)) =
          disable (SpimRegs.mk 0 0 0 0 0 0 0 0 0 false)) :=
  ⟨rfl, enable_disable_clock_gate (SpimRegs.mk 0 0 0 0 0 0 0 0 0 false) rfl⟩

/-- Counterexample to claim C3: `send` on a buffer of length 1 and
`receive` on a buffer of length 0 return normally and emit command words
whose size and length immediates have silently wrapped around `2 ^ 32`
(`0xFFFFFFFF`, `0xFFFFFFFE`); no error or reject path exists in the
driver. -/
theorem short_buffer_no_reject :
    send ⟨0, [0xAA]⟩ =
      [ChanOp.cmd [0x00, 0x00, 0x00, 0xD0, 0xFF, 0xFF, 0xFF, 0xFF, 0x00, 0x00, 0x07, 0x64],
       ChanOp.tx ⟨0, [0xAA]⟩]
  ∧ sendCmdWords ⟨0, [0xAA]⟩ = [0xD0000000, 0xFFFFFFFF, 0x64070000]
  ∧ receive ⟨0, []⟩ =
      [ChanOp.cmd [0x00, 0x00, 0x00, 0xD0, 0xFE, 0xFF, 0xFF, 0xFF, 0xFF, 0xFF, 0xFF, 0xFF],
       ChanOp.rx ⟨0, []⟩]
  ∧ receiveCmdWords ⟨0, []⟩ = [0xD0000000, 0xFFFFFFFE, 0xFFFFFFFF] := by
  refine ⟨by decide, by decide, by decide, by decide⟩

/-- Amended claim C3: for buffers of length 0 or 1, `send` and `receive`
have no error or reject path — they emit the set-up-size word with the
wrapped immediate `2 ^ 32 - 2 + len` and the data word with the wrapped
immediate `(2 ^ 32 - 1 + len) % 2 ^ 32`, and still arm the data channel
(release-build semantics; a debug build would panic on the underflowing
subtraction instead). -/
theorem short_buffer_wraps (b : Buffer) (hw : b.Wf) (h : b.data.length ≤ 1) :
    sendCmdWords b =
      [ SPI_CMD_SETUP_UCA ||| (b.addr &&& 0x0000FFFF),
        SPI_CMD_SETUP_UCS ||| (U32 - 2 + b.data.length),
        SPI_CMD_TX_DATA ||| ((U32 - 1 + b.data.length) % U32) ||| (7 <<< 16) ]
  ∧ receiveCmdWords b =
      [ SPI_CMD_SETUP_UCA ||| (b.addr &&& 0x0000FFFF),
        SPI_CMD_SETUP_UCS ||| (U32 - 2 + b.data.length),
        SPI_CMD_RX_DATA ||| ((U32 - 1 + b.data.length) % U32) ||| (7 <<< 16) ]
  ∧ send b = [ChanOp.cmd (((sendCmdWords b).map u32ToNeBytes).flatten), ChanOp.tx b]
  ∧ receive b = [ChanOp.cmd (((receiveCmdWords b).map u32ToNeBytes).flatten), ChanOp.rx b] := by
  obtain ⟨ha, hl⟩ := hw
  have hmod : b.addr % U32 = b.addr := Nat.mod_eq_of_lt ha
  have hU : U32 = 4294967296 := by norm_num [U32]
  have e2 : usizeSub b.data.length 2 = U32 - 2 + b.data.length := by
    unfold usizeSub
    rw [hU]
    omega
  have e1 : usizeSub b.data.length 1 = (U32 - 1 + b.data.length) % U32 := by
    unfold usizeSub
    rw [hU]
    omega
  refine ⟨?_, ?_, ?_, ?_⟩
  · simp only [sendCmdWords, hmod, e2, e1]
  · simp only [receiveCmdWords, hmod, e2, e1]
  · simp [send, sendCmdWords, u32ToNeBytes]
  · simp [receive, receiveCmdWords, u32ToNeBytes]

/-- Witness for the amended C3 at the length-1 buffer with address 3 and
byte `[7]`. -/
theorem short_buffer_wraps_witness :
    (⟨3, [7]⟩ : Buffer).Wf ∧ (⟨3, [7]⟩ : Buffer).data.length ≤ 1 ∧
      (sendCmdWords ⟨3, [7]⟩ =
          [ SPI_CMD_SETUP_UCA ||| ((⟨3, [7]⟩ : Buffer).addr &&& 0x0000FFFF),
            SPI_CMD_SETUP_UCS ||| (U32 - 2 + (⟨3, [7]⟩ : Buffer).data.length),
            SPI_CMD_TX_DATA ||| ((U32 - 1 + (⟨3, [7]⟩ : Buffer).data.length) % U32) |||
              (7 <<< 16) ]
        ∧ receiveCmdWords ⟨3, [7]⟩ =
            [ SPI_CMD_SETUP_UCA ||| ((⟨3, [7]⟩ : Buffer).addr &&& 0x0000FFFF),
              SPI_CMD_SETUP_UCS ||| (U32 - 2 + (⟨3, [7]⟩ : Buffer).data.length),
              SPI_CMD_RX_DATA ||| ((U32 - 1 + (⟨3, [7]⟩ : Buffer).data.length) % U32) |||
                (7 <<< 16) ]
        ∧ send ⟨3, [7]⟩ =
            [ChanOp.cmd (((sendCmdWords ⟨3, [7]⟩).map u32ToNeBytes).flatten),
             ChanOp.tx ⟨3, [7]⟩]
        ∧ receive ⟨3, [7]⟩ =
            [ChanOp.cmd (((receiveCmdWords ⟨3, [7]⟩).map u32ToNeBytes).flatten),
             ChanOp.rx ⟨3, [7]⟩]) :=
  ⟨by decide, by decide, short_buffer_wraps ⟨3, [7]⟩ (by decide) (by decide)⟩

end Spim
